import Mathlib

/-!
Verification of the deferred-result (Future) core of `tornado/concurrent.py`.

The `Future` class is embedded as a pure record; every mutating Python method
becomes a function returning the updated record (plus, for the completion
operations, the list of continuations handed to the event-loop scheduler).
Values follow Python's convention: the stored result lives in `Option V`,
where `none` plays the role of Python's `None` (the code only ever tests
`is not None`).  Errors (`exc_info` triples / exception objects) are an
opaque type `E`.
-/

/-- Models `_GC_CYCLE_FINALIZERS` from `concurrent.py`: true on CPython 3.4+
(the configuration under which the audited `__del__` of `Future` is defined). -/
def _GC_CYCLE_FINALIZERS : Bool := true

/-- Models `tornado.util.is_finalizing` (not under `src/`): whether the
interpreter is shutting down; `false` during normal operation, which is the
regime the spec describes. -/
def is_finalizing : Bool := false

/-- Error kinds with which an observation on a `Future` can fail:
`notDone` models the `Exception("DummyFuture does not support blocking for
results")` raised by `_check_done`, and `raised e` models `raise_exc_info`
re-raising a stored error. -/
inductive FutError (E : Type) where
  | notDone : FutError E
  | raised (e : E) : FutError E
deriving DecidableEq, Repr

/-- Models `_TracebackLogger` (`concurrent.py`): helper holding an
`exc_info` and a formatted traceback, used only on Python <= 3.3. -/
structure TbLogger (E : Type) where
  exc_info : Option E
  formatted_tb : Option E
deriving DecidableEq, Repr

/-- Models `_TracebackLogger.activate`. -/
def TbLogger.activate (l : TbLogger E) : TbLogger E :=
  match l.exc_info with
  | some e => { exc_info := none, formatted_tb := some e }
  | none => l

/-- Models `_TracebackLogger.clear`. -/
def TbLogger.clear (_ : TbLogger E) : TbLogger E :=
  { exc_info := none, formatted_tb := none }

/-- Names for the futures of a two-future world, enough for every scenario
the chaining protocol involves (a source and a destination). -/
inductive FutId where
  | A : FutId
  | B : FutId
deriving DecidableEq, Repr

/-- Continuations are defunctionalised: `user n` is an opaque callback
registered by client code (identified by `n`), and `copy src dst` is the
`copy` closure created by `chain_future(src, dst)`. -/
inductive Cb where
  | user (n : Nat) : Cb
  | copy (src dst : FutId) : Cb
deriving DecidableEq, Repr

/-- The state of `tornado.concurrent.Future`: fields `_done`, `_result`,
`_exc_info`, `_log_traceback`, `_tb_logger`, `_callbacks` exactly as set up
by `Future.__init__`.  `_callbacks = none` models Python's
`self._callbacks = None` (after `_set_done` clears the list), while
`some l` models a live list. -/
structure Future (V E : Type) where
  _done : Bool
  _result : Option V
  _exc_info : Option E
  _log_traceback : Bool
  _tb_logger : Option (TbLogger E)
  _callbacks : Option (List Cb)
deriving DecidableEq, Repr

namespace Future

/-- `Future.__init__`: pending, no outcome, empty continuation list. -/
def fresh : Future V E :=
  { _done := false, _result := none, _exc_info := none,
    _log_traceback := false, _tb_logger := none, _callbacks := some [] }

/-- `Future.cancel`: always returns `False`. -/
def cancel (_ : Future V E) : Bool := false

/-- `Future.cancelled`: always returns `False`. -/
def cancelled (_ : Future V E) : Bool := false

/-- `Future.running`. -/
def running (f : Future V E) : Bool := !f._done

/-- `Future.done`. -/
def done (f : Future V E) : Bool := f._done

/-- `Future._clear_tb_log`: drops the unobserved-error flag and the
`<= py3.3` logger. -/
def _clear_tb_log (f : Future V E) : Future V E :=
  { f with _log_traceback := false,
           _tb_logger := none }

/-- `Future._check_done`: raises when the future is not yet done. -/
def _check_done (f : Future V E) : Except (FutError E) Unit :=
  if !f._done then Except.error FutError.notDone else Except.ok ()

/-- `Future.result`: clears the traceback log, returns the stored result if
present, re-raises the stored error if present, otherwise checks doneness
(raising `notDone` when pending) and returns `self._result` (i.e. `None`). -/
def result (f : Future V E) : Future V E × Except (FutError E) (Option V) :=
  let f := f._clear_tb_log
  match f._result with
  | some r => (f, Except.ok (some r))
  | none =>
    match f._exc_info with
    | some e => (f, Except.error (FutError.raised e))
    | none =>
      match f._check_done with
      | Except.error err => (f, Except.error err)
      | Except.ok _ => (f, Except.ok f._result)

/-- `Future.exception`: clears the traceback log, returns the stored error
object if present, otherwise checks doneness and returns `None`. -/
def exception (f : Future V E) : Future V E × Except (FutError E) (Option E) :=
  let f := f._clear_tb_log
  match f._exc_info with
  | some e => (f, Except.ok (some e))
  | none =>
    match f._check_done with
    | Except.error err => (f, Except.error err)
    | Except.ok _ => (f, Except.ok none)

/-- `Future.exc_info`: clears the traceback log and returns `self._exc_info`;
total — it never raises, even on a pending future. -/
def exc_info (f : Future V E) : Future V E × Option E :=
  let f := f._clear_tb_log
  (f, f._exc_info)

/-- `Future.add_done_callback`: if already done, hand `fn` to the IOLoop
(`IOLoop.current().add_callback(fn, self)` — the second component lists the
callbacks scheduled); otherwise append `fn` to `self._callbacks`. -/
def add_done_callback (f : Future V E) (fn : Cb) : Future V E × List Cb :=
  if f._done then
    (f, [fn])
  else
    match f._callbacks with
    | some l => ({ f with _callbacks := some (l ++ [fn]) }, [])
    | none => (f, [])  -- unreachable: a pending future always holds a list

/-- `Future._set_done`: marks the future done; when the continuation list is
truthy (non-`None` and non-empty) its members are handed to the IOLoop in
order and the list is set to `None`. -/
def _set_done (f : Future V E) : Future V E × List Cb :=
  let f := { f with _done := true }
  match f._callbacks with
  | some (c :: cs) => ({ f with _callbacks := none }, c :: cs)
  | _ => (f, [])

/-- `Future.set_result`: stores the result (`result` is a Python value, so
`Option V` with `none` for `None`) and runs `_set_done`.  Note the source has
no done-check: calling it on an already-resolved future simply overwrites. -/
def set_result (f : Future V E) (result : Option V) : Future V E × List Cb :=
  ({ f with _result := result })._set_done

/-- `Future.set_exc_info`: stores the error, arms `_log_traceback`, installs
the `<= py3.3` logger when `_GC_CYCLE_FINALIZERS` is false, runs `_set_done`,
then (in the `finally`) activates the logger if the traceback is still
unobserved, and re-assigns `self._exc_info` (the source's residual duplicate
assignment). -/
def set_exc_info (f : Future V E) (exc : E) : Future V E × List Cb :=
  let f := { f with _exc_info := some exc,
                    _log_traceback := true,
                    _tb_logger := if _GC_CYCLE_FINALIZERS then f._tb_logger
                                  else some { exc_info := some exc, formatted_tb := none } }
  let p := f._set_done
  let f := p.1
  let f := if f._log_traceback then { f with _tb_logger := f._tb_logger.map TbLogger.activate }
           else f
  let f := { f with _exc_info := some exc }
  (f, p.2)

/-- `Future.set_exception`: builds the `exc_info` triple from the exception
and delegates to `set_exc_info`; `E` stands for both, so this is the same
operation on the model. -/
def set_exception (f : Future V E) (e : E) : Future V E × List Cb :=
  f.set_exc_info e

/-- `Future.__del__` (the `_GC_CYCLE_FINALIZERS` branch): number of
"Future exception was never retrieved" reports emitted when the future is
destroyed — one when the unobserved-error flag is still armed, zero
otherwise. -/
def del_log_count (f : Future V E) : Nat :=
  if is_finalizing || !f._log_traceback then 0 else 1

end Future

/-- `future_set_result_unless_cancelled`: the guard `future.cancelled()` is
always false for this `Future`, so this sets the result. -/
def future_set_result_unless_cancelled (future : Future V E) (value : Option V) :
    Future V E × List Cb :=
  if !future.cancelled then future.set_result value else (future, [])

/-- `future_set_exc_info`: this `Future` has `set_exc_info` (`hasattr`
succeeds), so delegate to it. -/
def future_set_exc_info (future : Future V E) (exc : E) : Future V E × List Cb :=
  future.set_exc_info exc

/-- `DummyExecutor.submit`: runs `fn(*args)` (its outcome is the `Except`
argument: `ok v` when it returns `v`, `error e` when it raises `e`), storing
a returned value via `future_set_result_unless_cancelled` and a raised
exception via `future_set_exc_info`; the future is returned either way, so
`submit` itself never raises. -/
def DummyExecutor.submit (fn : Except E (Option V)) : Future V E × List Cb :=
  let future : Future V E := Future.fresh
  match fn with
  | Except.ok v => future_set_result_unless_cancelled future v
  | Except.error e => future_set_exc_info future e

/-- The spec's scenario function: `divide(a, b)` returns `a / b` and raises a
division error when `b = 0`. -/
def divide (a b : Nat) : Except String (Option Nat) :=
  if b = 0 then Except.error "ZeroDivisionError" else Except.ok (some (a / b))

/-- A two-future world together with the event loop.
Modelled from the spec: `IOLoop` is not under `src/`; the spec's Scheduler
capability is "queue `callback` to run later with `future` as its sole
argument; FIFO per queue", so `queue` is the FIFO of pending
`(callback, argument-future)` pairs and `ranLog` records, in order, every
callback invocation that has actually happened. -/
structure World (V E : Type) where
  futA : Future V E
  futB : Future V E
  queue : List (Cb × FutId)
  ranLog : List (Cb × FutId)
deriving DecidableEq, Repr

namespace World

/-- Both futures freshly constructed, nothing scheduled, nothing run. -/
def init : World V E :=
  { futA := Future.fresh, futB := Future.fresh, queue := [], ranLog := [] }

/-- Look up a future by name. -/
def get (w : World V E) : FutId → Future V E
  | FutId.A => w.futA
  | FutId.B => w.futB

/-- Replace a future by name. -/
def set (w : World V E) (i : FutId) (f : Future V E) : World V E :=
  match i with
  | FutId.A => { w with futA := f }
  | FutId.B => { w with futB := f }

/-- `IOLoop.current().add_callback(cb, fut)` for each listed callback:
append to the FIFO, in order. -/
def enqueue (w : World V E) (sched : List Cb) (i : FutId) : World V E :=
  { w with queue := w.queue ++ sched.map (fun cb => (cb, i)) }

/-- `Future.set_result` lifted to the world: update the future and hand the
returned continuations to the scheduler. -/
def setResult (w : World V E) (i : FutId) (v : Option V) : World V E :=
  let p := (w.get i).set_result v
  (w.set i p.1).enqueue p.2 i

/-- `Future.set_exc_info` lifted to the world. -/
def setExcInfo (w : World V E) (i : FutId) (e : E) : World V E :=
  let p := (w.get i).set_exc_info e
  (w.set i p.1).enqueue p.2 i

/-- `Future.add_done_callback` lifted to the world. -/
def addDoneCallback (w : World V E) (i : FutId) (cb : Cb) : World V E :=
  let p := (w.get i).add_done_callback cb
  (w.set i p.1).enqueue p.2 i

/-- The body of `chain_future`'s `copy(future)` closure, run with `future`
being the future named `src` (the closure's `a`) and `b` the future named
`dst`: return if `b` is done; else copy `a`'s `exc_info` when present
(reading it twice, as the source does — the second read returns the same
stored triple), else `a`'s exception object, else `a`'s result.  The
`Except.error` fallthroughs are unreachable (`copy` only runs once `a` is
done) and model an exception escaping `copy`, which would abort it leaving
`b` untouched. -/
def runCopy (w : World V E) (src dst : FutId) : World V E :=
  if (w.get dst).done then w
  else
    let q := (w.get src).exc_info
    let a := q.1
    match q.2 with
    | some e =>
      let a := (a.exc_info).1
      let pb := future_set_exc_info (w.get dst) e
      ((w.set src a).set dst pb.1).enqueue pb.2 dst
    | none =>
      let r := a.exception
      let a := r.1
      match r.2 with
      | Except.ok (some ex) =>
        let a := (a.exception).1
        let pb := (w.get dst).set_exception ex
        ((w.set src a).set dst pb.1).enqueue pb.2 dst
      | Except.ok none =>
        let s := a.result
        let a := s.1
        match s.2 with
        | Except.ok ores =>
          let pb := (w.get dst).set_result ores
          ((w.set src a).set dst pb.1).enqueue pb.2 dst
        | Except.error _ => w.set src a
      | Except.error _ => w.set src a

/-- Invoke a callback with its argument future: the invocation is recorded in
`ranLog`; a `user` callback is an opaque observer, a `copy` callback runs
`chain_future`'s copy routine. -/
def runCb (w : World V E) (cb : Cb) (arg : FutId) : World V E :=
  let w := { w with ranLog := w.ranLog ++ [(cb, arg)] }
  match cb with
  | Cb.user _ => w
  | Cb.copy src dst => w.runCopy src dst

/-- `future_add_done_callback`: if the future is done, invoke
`callback(future)` immediately (inline, in this very call); otherwise
register it via `Future.add_done_callback`. -/
def futureAddDoneCallback (w : World V E) (i : FutId) (cb : Cb) : World V E :=
  if (w.get i).done then w.runCb cb i
  else w.addDoneCallback i cb

/-- `chain_future a b` for two Tornado futures (`isinstance(a, Future)`
holds): register the `copy` closure on the source via
`future_add_done_callback`. -/
def chainFuture (w : World V E) (src dst : FutId) : World V E :=
  w.futureAddDoneCallback src (Cb.copy src dst)

/-- One turn of the event loop: dequeue the oldest scheduled callback and
invoke it. -/
def step (w : World V E) : World V E :=
  match w.queue with
  | [] => w
  | (cb, i) :: rest => ({ w with queue := rest }).runCb cb i

/-- Run the event loop for at most `n` turns (it stops early once the queue
is empty). -/
def run (w : World V E) : Nat → World V E
  | 0 => w
  | Nat.succ n => if w.queue.isEmpty then w else (w.step).run n

end World

/-- Register a list of continuations one after the other via
`Future.add_done_callback` (the setup step of the N-continuations scenario). -/
def Future.regCbs (f : Future V E) (cbs : List Cb) : Future V E :=
  cbs.foldl (fun g cb => (g.add_done_callback cb).1) f

theorem Future.regCbs_pending (cbs : List Cb) (f : Future V E) (l : List Cb)
    (hd : f._done = false) (hc : f._callbacks = some l) :
    f.regCbs cbs = { f with _callbacks := some (l ++ cbs) } := by
  induction cbs generalizing f l with
  | nil =>
    rcases f with ⟨d, r, x, lt, tb, cbs0⟩
    simp only at hc
    simp [Future.regCbs, hc]
  | cons c cs ih =>
    have hstep : (f.add_done_callback c).1 = { f with _callbacks := some (l ++ [c]) } := by
      rcases f with ⟨d, r, x, lt, tb, cbs0⟩
      simp only at hd hc
      simp [Future.add_done_callback, hd, hc]
    have := ih ((f.add_done_callback c).1) (l ++ [c])
      (by rw [hstep]; exact hd) (by rw [hstep])
    calc f.regCbs (c :: cs)
        = ((f.add_done_callback c).1).regCbs cs := rfl
      _ = { f with _callbacks := some (l ++ c :: cs) } := by
          rw [this, hstep]; simp

theorem World.set_ranLog (w : World V E) (i : FutId) (f : Future V E) :
    (w.set i f).ranLog = w.ranLog := by
  cases i <;> rfl

theorem World.set_queue (w : World V E) (i : FutId) (f : Future V E) :
    (w.set i f).queue = w.queue := by
  cases i <;> rfl

theorem World.enqueue_ranLog (w : World V E) (s : List Cb) (i : FutId) :
    (w.enqueue s i).ranLog = w.ranLog := rfl

theorem World.enqueue_queue (w : World V E) (s : List Cb) (i : FutId) :
    (w.enqueue s i).queue = w.queue ++ s.map (fun cb => (cb, i)) := rfl

/-- C1: for futures linked by `chain_future a b` with `b` still pending when
`a` completes, the event loop eventually resolves `b` with exactly `a`'s
outcome — the same value `v` when `a` got `set_result`, the same error `e`
(and no value) when `a` got `set_exc_info`. -/
theorem chain_future_propagates_outcome (V E : Type) (v : V) (e : E) :
    (((((World.init : World V E).chainFuture FutId.A FutId.B).setResult
          FutId.A (some v)).run 4).futB._done = true
    ∧ ((((World.init : World V E).chainFuture FutId.A FutId.B).setResult
          FutId.A (some v)).run 4).futB._result = some v
    ∧ ((((World.init : World V E).chainFuture FutId.A FutId.B).setResult
          FutId.A (some v)).run 4).futB._exc_info = none)
  ∧ (((((World.init : World V E).chainFuture FutId.A FutId.B).setExcInfo
          FutId.A e).run 4).futB._done = true
    ∧ ((((World.init : World V E).chainFuture FutId.A FutId.B).setExcInfo
          FutId.A e).run 4).futB._exc_info = some e
    ∧ ((((World.init : World V E).chainFuture FutId.A FutId.B).setExcInfo
          FutId.A e).run 4).futB._result = none) :=
  ⟨⟨rfl, rfl, rfl⟩, ⟨rfl, rfl, rfl⟩⟩

/-- C5: for `chain_future a b`, when `b` is already done by the time `a`
completes, the copy step leaves `b` exactly as it was (value `x`, no error,
done) and discards `a`'s outcome, whether `a` completed with a value or with
an error. -/
theorem chain_future_first_completion_wins (V E : Type) (x v : V) (e : E) :
    ((((((World.init : World V E).chainFuture FutId.A FutId.B).setResult
          FutId.B (some x)).setResult FutId.A (some v)).run 4).futB
        = ((Future.fresh : Future V E).set_result (some x)).1
    ∧ (((((World.init : World V E).chainFuture FutId.A FutId.B).setResult
          FutId.B (some x)).setResult FutId.A (some v)).run 4).futB._result = some x)
  ∧ ((((((World.init : World V E).chainFuture FutId.A FutId.B).setResult
          FutId.B (some x)).setExcInfo FutId.A e).run 4).futB
        = ((Future.fresh : Future V E).set_result (some x)).1
    ∧ (((((World.init : World V E).chainFuture FutId.A FutId.B).setResult
          FutId.B (some x)).setExcInfo FutId.A e).run 4).futB._exc_info = none) :=
  ⟨⟨rfl, rfl⟩, ⟨rfl, rfl⟩⟩

/-- C2 counterexample: a second `set_result` on an already-resolved `Future`
does not fail — it completes and silently overwrites the stored outcome
(here `some 1` becomes `some 2`), so no `AlreadyResolved` error is ever
reported. -/
theorem set_result_twice_silently_accepted_cex :
    ((((Future.fresh : Future Nat String).set_result (some 1)).1.set_result
        (some 2)).1._done = true)
  ∧ ((((Future.fresh : Future Nat String).set_result (some 1)).1.set_result
        (some 2)).1._result = some 2) :=
  ⟨rfl, rfl⟩

/-- C2 amended: calling a completion operation a second time on the same
`Future` is silently accepted — `set_result` stores the new value over the
old one, `set_exc_info` stores the new error, and the future stays done; the
source performs no done-check and has no `AlreadyResolved` error kind. -/
theorem set_result_twice_overwrites (V E : Type) (f : Future V E)
    (v u : Option V) (e : E) :
    (((f.set_result v).1.set_result u).1._result = u)
  ∧ (((f.set_result v).1.set_result u).1._done = true)
  ∧ (((f.set_result v).1.set_exc_info e).1._exc_info = some e)
  ∧ (((f.set_result v).1.set_exc_info e).1._done = true) := by
  rcases f with ⟨d, r, x, lt, tb, _ | ⟨_ | ⟨c, cs⟩⟩⟩ <;>
    exact ⟨rfl, rfl, rfl, rfl⟩

/-- C8: `set_exc_info` arms the unobserved-error flag (so destruction at
that point logs exactly one diagnostic report); any of the observing
operations `result` / `exception` / `exc_info` clears the flag, after which
destruction logs nothing. -/
theorem unobserved_error_flag_lifecycle (V E : Type) (f : Future V E) (e : E) :
    ((f.set_exc_info e).1._log_traceback = true)
  ∧ ((f.set_exc_info e).1.del_log_count = 1)
  ∧ (((f.set_exc_info e).1.result).1._log_traceback = false)
  ∧ (((f.set_exc_info e).1.result).1.del_log_count = 0)
  ∧ (((f.set_exc_info e).1.exception).1._log_traceback = false)
  ∧ (((f.set_exc_info e).1.exception).1.del_log_count = 0)
  ∧ (((f.set_exc_info e).1.exc_info).1._log_traceback = false)
  ∧ (((f.set_exc_info e).1.exc_info).1.del_log_count = 0) := by
  rcases f with ⟨d, _ | rv, x, lt, tb, _ | ⟨_ | ⟨c, cs⟩⟩⟩ <;>
    exact ⟨rfl, rfl, rfl, rfl, rfl, rfl, rfl, rfl⟩

/-- C6: reading an unresolved `Future` fails rather than returning a
default — on a pending future with no stored value and no stored error,
`result()` raises the not-done error and `exception()` raises the not-done
error. -/
theorem pending_read_fails_not_done (V E : Type) (f : Future V E)
    (hd : f._done = false) (hr : f._result = none) (hx : f._exc_info = none) :
    ((f.result).2 = Except.error FutError.notDone)
  ∧ ((f.exception).2 = Except.error FutError.notDone) := by
  rcases f with ⟨d, r, x, lt, tb, cbs⟩
  simp only at hd hr hx
  subst hd; subst hr; subst hx
  exact ⟨rfl, rfl⟩

/-- C6 witness: a freshly constructed future is pending with no outcome, and
both reads fail with the not-done error. -/
theorem pending_read_fails_not_done_witness :
    (((Future.fresh : Future Nat String).result).2 = Except.error FutError.notDone)
  ∧ (((Future.fresh : Future Nat String).exception).2 = Except.error FutError.notDone) :=
  pending_read_fails_not_done Nat String Future.fresh rfl rfl rfl

/-- C10: on a still-pending future with no stored outcome, `exc_info()`
returns `none` without failing (it is total) and still clears the
unobserved-error flag and the traceback logger, whereas `result()` and
`exception()` fail with the not-done error on the same future. -/
theorem exc_info_on_pending_returns_none (V E : Type) (f : Future V E)
    (hd : f._done = false) (hr : f._result = none) (hx : f._exc_info = none) :
    ((f.exc_info).2 = none)
  ∧ ((f.exc_info).1._log_traceback = false)
  ∧ ((f.exc_info).1._tb_logger = none)
  ∧ ((f.result).2 = Except.error FutError.notDone)
  ∧ ((f.exception).2 = Except.error FutError.notDone) := by
  rcases f with ⟨d, r, x, lt, tb, cbs⟩
  simp only at hd hr hx
  subst hd; subst hr; subst hx
  exact ⟨rfl, rfl, rfl, rfl, rfl⟩

/-- C10 witness: the property at a concrete pending future that has the
unobserved-error flag and logger armed. -/
theorem exc_info_on_pending_returns_none_witness :
    ((({ _done := false, _result := none, _exc_info := none,
         _log_traceback := true, _tb_logger := some { exc_info := none, formatted_tb := none },
         _callbacks := some [] } : Future Nat String).exc_info).2 = none)
  ∧ ((({ _done := false, _result := none, _exc_info := none,
         _log_traceback := true, _tb_logger := some { exc_info := none, formatted_tb := none },
         _callbacks := some [] } : Future Nat String).exc_info).1._log_traceback = false)
  ∧ ((({ _done := false, _result := none, _exc_info := none,
         _log_traceback := true, _tb_logger := some { exc_info := none, formatted_tb := none },
         _callbacks := some [] } : Future Nat String).exc_info).1._tb_logger = none)
  ∧ ((({ _done := false, _result := none, _exc_info := none,
         _log_traceback := true, _tb_logger := some { exc_info := none, formatted_tb := none },
         _callbacks := some [] } : Future Nat String).result).2 = Except.error FutError.notDone)
  ∧ ((({ _done := false, _result := none, _exc_info := none,
         _log_traceback := true, _tb_logger := some { exc_info := none, formatted_tb := none },
         _callbacks := some [] } : Future Nat String).exception).2 = Except.error FutError.notDone) :=
  exc_info_on_pending_returns_none Nat String _ rfl rfl rfl

/-- C9: `DummyExecutor.submit` always returns a completed future and never
lets `fn`'s exception escape: a returned value `v` becomes the future's
result (read back as `ok v`), a raised error `e` is captured in the error
slot and re-raised only when `result()` is read; concretely,
`divide 10 2` yields `5` and `divide 10 0` captures the division error. -/
theorem dummy_executor_submit_captures :
    (∀ (V E : Type) (v : Option V) (e : E),
      ((DummyExecutor.submit (Except.ok v) : Future V E × List Cb).1._done = true)
    ∧ ((DummyExecutor.submit (Except.ok v) : Future V E × List Cb).1._result = v)
    ∧ (((DummyExecutor.submit (Except.ok v) : Future V E × List Cb).1.result).2
        = Except.ok v)
    ∧ ((DummyExecutor.submit (Except.error e) : Future V E × List Cb).1._done = true)
    ∧ ((DummyExecutor.submit (Except.error e) : Future V E × List Cb).1._exc_info = some e)
    ∧ (((DummyExecutor.submit (Except.error e) : Future V E × List Cb).1.result).2
        = Except.error (FutError.raised e)))
  ∧ (((DummyExecutor.submit (divide 10 2)).1.result).2 = Except.ok (some 5))
  ∧ (((DummyExecutor.submit (divide 10 0)).1.result).2
      = Except.error (FutError.raised "ZeroDivisionError")) := by
  refine ⟨fun V E v e => ?_, rfl, rfl⟩
  rcases v with _ | rv <;> exact ⟨rfl, rfl, rfl, rfl, rfl, rfl⟩

theorem World.lift_ranLog (w : World V E) (i : FutId) (p : Future V E × List Cb) :
    ((w.set i p.1).enqueue p.2 i).ranLog = w.ranLog := by
  rw [World.enqueue_ranLog, World.set_ranLog]

theorem World.lift_queue (w : World V E) (i : FutId) (p : Future V E × List Cb) :
    ((w.set i p.1).enqueue p.2 i).queue = w.queue ++ p.2.map (fun c => (c, i)) := by
  rw [World.enqueue_queue, World.set_queue]

/-- C3: no continuation runs from within a completion or registration call —
`set_result`, `set_exc_info` and `add_done_callback` leave the log of
performed callback invocations untouched, and `add_done_callback` on an
already-done future appends the callback to the scheduler queue (on a
pending future it queues nothing), so nothing runs before control returns. -/
theorem completion_never_runs_callbacks_inline (V E : Type) (w : World V E)
    (i : FutId) (v : Option V) (e : E) (cb : Cb) :
    ((w.setResult i v).ranLog = w.ranLog)
  ∧ ((w.setExcInfo i e).ranLog = w.ranLog)
  ∧ ((w.addDoneCallback i cb).ranLog = w.ranLog)
  ∧ ((w.addDoneCallback i cb).queue
      = w.queue ++ (if (w.get i)._done = true then [(cb, i)] else [])) := by
  refine ⟨World.lift_ranLog w i _, World.lift_ranLog w i _, World.lift_ranLog w i _, ?_⟩
  have hq : ((w.get i).add_done_callback cb).2
      = (if (w.get i)._done = true then [cb] else []) := by
    by_cases h : (w.get i)._done
    · simp [Future.add_done_callback, h]
    · simp only [Future.add_done_callback]
      rcases hc : (w.get i)._callbacks with _ | l <;> simp [h, hc]
  refine (World.lift_queue w i _).trans ?_
  rw [hq]
  by_cases h : (w.get i)._done <;> simp [h]

/-- C4: registering the continuations `user n` for `n` in `ns` on a pending
future and then resolving it once hands exactly those continuations to the
scheduler queue, in registration order, sets the continuation list to `None`,
and runs nothing inline. -/
theorem set_result_schedules_callbacks_in_order (V E : Type) (ns : List Nat)
    (v : Option V) (hne : ns ≠ []) :
    ((({ World.init with futA := Future.fresh.regCbs (ns.map Cb.user) } : World V E).setResult
        FutId.A v).queue = (ns.map Cb.user).map (fun cb => (cb, FutId.A)))
  ∧ ((({ World.init with futA := Future.fresh.regCbs (ns.map Cb.user) } : World V E).setResult
        FutId.A v).futA._callbacks = none)
  ∧ ((({ World.init with futA := Future.fresh.regCbs (ns.map Cb.user) } : World V E).setResult
        FutId.A v).ranLog = []) := by
  have hreg : (Future.fresh : Future V E).regCbs (ns.map Cb.user)
      = { Future.fresh with _callbacks := some (ns.map Cb.user) } := by
    have h := Future.regCbs_pending (ns.map Cb.user) (Future.fresh : Future V E) [] rfl rfl
    simpa using h
  rcases ns with _ | ⟨n, ns⟩
  · exact absurd rfl hne
  · simp only [hreg]
    exact ⟨rfl, rfl, rfl⟩

/-- C4 witness: the scenario with continuations 1 and 2 registered and the
future resolved with value 5. -/
theorem set_result_schedules_callbacks_in_order_witness :
    ([1, 2] ≠ ([] : List Nat))
  ∧ (((({ World.init with futA := Future.fresh.regCbs ([1, 2].map Cb.user) } : World Nat String).setResult
        FutId.A (some 5)).queue = ([1, 2].map Cb.user).map (fun cb => (cb, FutId.A)))
    ∧ ((({ World.init with futA := Future.fresh.regCbs ([1, 2].map Cb.user) } : World Nat String).setResult
        FutId.A (some 5)).futA._callbacks = none)
    ∧ ((({ World.init with futA := Future.fresh.regCbs ([1, 2].map Cb.user) } : World Nat String).setResult
        FutId.A (some 5)).ranLog = [])) :=
  ⟨by decide, set_result_schedules_callbacks_in_order Nat String [1, 2] (some 5) (by decide)⟩

/-- C7: `future_add_done_callback` invokes the callback inline (recording the
invocation before returning, with the queue untouched) exactly when the
future is already done, and otherwise registers it via
`Future.add_done_callback`; the latter, by contrast, never performs an
invocation itself. -/
theorem future_add_done_callback_inline_when_done (V E : Type) (w : World V E)
    (i : FutId) (n : Nat) :
    (w.futureAddDoneCallback i (Cb.user n)
        = if (w.get i)._done = true
          then { w with ranLog := w.ranLog ++ [(Cb.user n, i)] }
          else w.addDoneCallback i (Cb.user n))
  ∧ ((w.addDoneCallback i (Cb.user n)).ranLog = w.ranLog) := by
  constructor
  · by_cases h : (w.get i)._done
    · simp [World.futureAddDoneCallback, Future.done, h, World.runCb]
    · simp [World.futureAddDoneCallback, Future.done, h]
  · exact World.lift_ranLog w i _
